import Mathlib

/-!
Verification of the Tmux-Orchestrator repository's orchestration scripts
against its natural-language specification.

The repository's executable orchestration logic lives in shell scripts that
wrap the `tmux` CLI (`show_tmux_sessions.sh` and the unified-dashboard script,
both concatenated in `src/unnamed/part_000`) and in the message-send wrapper
`send-qwen-message.sh` (`src/unnamed/part_023`), which delegates agent lookup
and delivery to an external `qwen_control.py` that is not included in the
source tree.  We embed those scripts shallowly: the tmux server is a state
holding the list of live session names, each script function becomes a Lean
function from that state (plus its inputs) to a new state and a result, and
the send script's observable behaviour (exit code, delivery attempts) is
returned as data.  Components that exist only in the specification's design
text (the role-checking MessageRouter, the ProcessSupervisor's restart
counter, the persistence layout) are modelled from the spec, as marked on
their doc comments.
-/

namespace Tmux

/-- The state of the tmux server: the names of live sessions.
`tmux` itself never holds two sessions with the same name (`new-session`
fails on a duplicate name), which the operations below reflect. -/
structure TmuxState where
  sessions : List String
deriving Repr, DecidableEq

/-- `tmux has-session -t name`: true iff a session with that name is live. -/
def hasSession (st : TmuxState) (name : String) : Bool :=
  st.sessions.contains name

/-- `tmux new-session -d -s name`: fails (returns `none`) when a session of
that name already exists, otherwise adds the session. -/
def newSession (st : TmuxState) (name : String) : Option TmuxState :=
  if hasSession st name then none
  else some { sessions := name :: st.sessions }

/-- `tmux kill-session -t name`: removes the named session (a no-op on the
session list when the name is absent; the script ignores the error). -/
def killSession (st : TmuxState) (name : String) : TmuxState :=
  { sessions := st.sessions.filter (fun s => s ≠ name) }

end Tmux

namespace ShowSessions

open Tmux

/-- Result of a `show_tmux_sessions.sh` function: the new tmux state and the
function's return code (`true` for return 0, `false` for return 1). -/
structure CreateResult where
  state : TmuxState
  ok : Bool
deriving Repr, DecidableEq

/-- `create_session` from `show_tmux_sessions.sh` (src/unnamed/part_000,
lines 88-117): rejects an empty name, then runs
`tmux new-session -d -s "$session_name" -n "$window_name"`; on tmux failure
(in particular a duplicate session name) it prints an error and returns 1,
leaving the server state unchanged. The optional command only sends keys into
the new session and does not change the session list. -/
def create_session (st : TmuxState) (session_name : String) : CreateResult :=
  if session_name = "" then { state := st, ok := false }
  else
    match newSession st session_name with
    | some st' => { state := st', ok := true }
    | none => { state := st, ok := false }

end ShowSessions

namespace Dashboard

open Tmux

/-- The fixed dashboard session name (`SESSION_NAME` in the unified-dashboard
script, src/unnamed/part_000 line 200). -/
def SESSION_NAME : String := "qwen-unified-dashboard"

/-- `session_exists` from the unified-dashboard script (src/unnamed/part_000,
lines 225-229): wraps `tmux has-session`. -/
def session_exists (st : TmuxState) (name : String) : Bool :=
  hasSession st name

/-- `create_unified_dashboard` from the unified-dashboard script
(src/unnamed/part_000, lines 236-266), restricted to its effect on the tmux
session list: kill any existing dashboard session, re-check for one (the
attach path), otherwise create a fresh one; pane splitting and key sends do
not change the session list. Returns the new state and `true` for return 0. -/
def create_unified_dashboard (st : TmuxState) : TmuxState × Bool :=
  let st1 := if session_exists st SESSION_NAME then killSession st SESSION_NAME else st
  if session_exists st1 SESSION_NAME then (st1, true)
  else
    match newSession st1 SESSION_NAME with
    | some st2 => (st2, true)
    | none => (st1, false)

end Dashboard

namespace SendQwen

/-- A line of `qwen_control.py list --session <s>` as the send script parses
it: an agent id followed by `- <session>:<window> -`.  The window field is
kept as the literal digit string the listing shows, because the script greps
for the exact text `- ${session}:${window} -`. -/
structure AgentRow where
  id : String
  session : String
  window : String
deriving Repr, DecidableEq

/-- The external environment `send-qwen-message.sh` (src/unnamed/part_023)
observes through `qwen_control.py`:
`registered` are the agent ids for which `qwen_control.py info` succeeds;
`listing s` is the result of `qwen_control.py list --session s` (`none` when
that command fails); `messageOk a m` tells whether
`qwen_control.py message a m` exits 0; `healthOk` is the outcome of the
`--health` checks. -/
structure QwenEnv where
  registered : List String
  listing : String → Option (List AgentRow)
  messageOk : String → String → Bool
  healthOk : Bool

/-- How a run of `send-qwen-message.sh` ends, one constructor per exit site
of the script. -/
inductive Outcome where
  | usage
  | helpShown
  | versionShown
  | healthPassed
  | healthFailed
  | sent (agent : String)
  | sendFailed (agent : String)
  | notFound
  | emptyInput
deriving Repr, DecidableEq

/-- The exit code each outcome produces (`exit 1` for usage, `exit 0` for
`--help`/`--version`, `exit $?` of the health check and of
`send_api_message`, `exit 1` on lines 146 and 208-216). -/
def Outcome.exitCode : Outcome → Nat
  | .usage => 1
  | .helpShown => 0
  | .versionShown => 0
  | .healthPassed => 0
  | .healthFailed => 1
  | .sent _ => 0
  | .sendFailed _ => 1
  | .notFound => 1
  | .emptyInput => 1

/-- The observable result of a run: how it exited and which
`qwen_control.py message <agent> <text>` calls it attempted. -/
structure RunResult where
  outcome : Outcome
  deliveries : List (String × String)
deriving Repr, DecidableEq

/-- Modelled from the spec: the external `qwen_control.py` (absent from the
source tree) appends a delivered message to the recipient's conversation
inside its `message` command, so the conversation entries a run adds are
exactly its delivery attempts. -/
def conversationAppends (r : RunResult) : List (String × String) :=
  r.deliveries

/-- `check_agent_exists` (src/unnamed/part_023, lines 34-43): succeeds iff
`qwen_control.py info <agent_id>` does. -/
def check_agent_exists (env : QwenEnv) (agent_id : String) : Bool :=
  env.registered.contains agent_id

/-- Split a character list at its first `:`; `none` when no `:` occurs. -/
def breakAtColon : List Char → Option (List Char × List Char)
  | [] => none
  | c :: cs =>
      if c = ':' then some ([], cs)
      else (breakAtColon cs).map (fun p => (c :: p.1, p.2))

/-- The regex test `^([^:]+):([0-9]+)$` of `find_agent_by_session_window`:
a non-empty colon-free session name, a colon, a non-empty digit string (the
digit requirement also makes a second colon impossible). -/
def parse_session_window (s : String) : Option (String × String) :=
  match breakAtColon s.toList with
  | some (sess, win) =>
      if sess ≠ [] ∧ win ≠ [] ∧ win.all Char.isDigit
      then some (String.mk sess, String.mk win) else none
  | none => none

/-- Join agent ids the way the shell variable capture does: `awk` emits one
id per matching line and the captured variable holds them newline-joined. -/
def joinLines : List String → String
  | [] => ""
  | [x] => x
  | x :: xs => x ++ "\n" ++ joinLines xs

/-- `find_agent_by_session_window` (src/unnamed/part_023, lines 76-102):
when the argument matches `session:window`, list the agents of that session;
grep the lines containing `- session:window -` and take their first fields
(`awk` prints one per matching line; the shell variable then holds them
joined by newlines); succeed iff that is non-empty. -/
def find_agent_by_session_window (env : QwenEnv) (session_window : String) :
    Option String :=
  match parse_session_window session_window with
  | none => none
  | some (sess, win) =>
      match env.listing sess with
      | none => none
      | some rows =>
          match (rows.filter fun r => r.session = sess ∧ r.window = win).map
              (fun r => r.id) with
          | [] => none
          | ids => some (joinLines ids)

/-- `send_api_message` (src/unnamed/part_023, lines 45-74): one
`qwen_control.py message` call; returns 0 on its success, 1 on failure. -/
def send_api_message (env : QwenEnv) (agent_id message : String) : RunResult :=
  if env.messageOk agent_id message
  then { outcome := .sent agent_id, deliveries := [(agent_id, message)] }
  else { outcome := .sendFailed agent_id, deliveries := [(agent_id, message)] }

/-- `main` (src/unnamed/part_023, lines 119-147): direct id lookup first,
then the `session:window` fallback, else the agent-not-found exit (line 146,
`exit 1`) with no delivery attempted. -/
def script_main (env : QwenEnv) (agent_id message : String) : RunResult :=
  if check_agent_exists env agent_id then
    send_api_message env agent_id message
  else
    match find_agent_by_session_window env agent_id with
    | some resolved => send_api_message env resolved message
    | none => { outcome := .notFound, deliveries := [] }

/-- The whole of `send-qwen-message.sh` on an argument list: the argument
count check (lines 7-15) runs first and exits 1 on fewer than two arguments;
then `AGENT_ID` is the first argument and `MESSAGE` the rest joined by
spaces; the special-command dispatch on `AGENT_ID` (lines 175-205) runs
next, then the emptiness validations (lines 207-216), then `main`. -/
def run_script (env : QwenEnv) (args : List String) : RunResult :=
  if args.length < 2 then { outcome := .usage, deliveries := [] }
  else
    match args with
    | [] => { outcome := .usage, deliveries := [] }
    | agent_id :: rest =>
        let message := String.intercalate " " rest
        if agent_id = "--help" ∨ agent_id = "-h" then
          { outcome := .helpShown, deliveries := [] }
        else if agent_id = "--health" then
          if env.healthOk
          then { outcome := .healthPassed, deliveries := [] }
          else { outcome := .healthFailed, deliveries := [] }
        else if agent_id = "--version" then
          { outcome := .versionShown, deliveries := [] }
        else if agent_id = "" then { outcome := .emptyInput, deliveries := [] }
        else if message = "" then { outcome := .emptyInput, deliveries := [] }
        else script_main env agent_id message

end SendQwen

namespace EnvPaths

/-- The process environment the scripts read: `HOME`, the optional
`ORCHESTRATOR_ROOT` variable, and the current working directory. -/
structure Env where
  home : String
  orchestratorRoot : Option String
  cwd : String
deriving Repr, DecidableEq

/-- `BASE_DIR="$HOME/.tmux_orchestrator"` from `setup_qwen_orchestrator.sh`
(line 13): the base directory for agents, conversations, config and logs. -/
def BASE_DIR (e : Env) : String :=
  e.home ++ "/.tmux_orchestrator"

/-- `LOG_FILE="${HOME}/.tmux_orchestrator/logs/message_log.txt"` from
`send-qwen-message.sh` (src/unnamed/part_023, line 24). -/
def LOG_FILE (e : Env) : String :=
  e.home ++ "/.tmux_orchestrator/logs/message_log.txt"

end EnvPaths

namespace Supervisor

/-- Modelled from the spec: the ProcessSupervisor of section 4.2 is not in
the source tree (its `agent_state_manager.py` is only referenced), so its
worker table is taken from the spec's words. A table entry keeps the worker's
`restartCount` and lifecycle state. -/
inductive WState where
  | starting
  | running
  | unresponsive
  | stopped
deriving Repr, DecidableEq

/-- A worker-table entry: id, restart count, lifecycle state. -/
structure SupWorker where
  id : String
  restartCount : Nat
  state : WState
deriving Repr, DecidableEq

/-- The supervisor operations of spec section 4.2 that touch a worker id. -/
inductive SupOp where
  | spawn
  | restart
  | terminate
deriving Repr, DecidableEq

/-- Modelled from the spec (section 4.2): `spawn` creates a worker in state
Starting with a fresh restart count of zero, but for an id already in the
table it re-enters Starting without touching the count (the count "only
increases, never resets, for the lifetime of a Worker id"); `restart`
increments `restartCount` and preserves the id; `terminate` sets the state
to Stopped. -/
def applyOp (table : List SupWorker) (wid : String) :
    SupOp → List SupWorker
  | .spawn =>
      if table.any fun w => w.id = wid then
        table.map fun w =>
          if w.id = wid then { w with state := .starting } else w
      else
        { id := wid, restartCount := 0, state := WState.starting } :: table
  | .restart =>
      table.map fun w =>
        if w.id = wid then
          { w with restartCount := w.restartCount + 1, state := .starting }
        else w
  | .terminate =>
      table.map fun w =>
        if w.id = wid then { w with state := .stopped } else w

/-- Run a sequence of supervisor operations against one worker id. -/
def runOps (table : List SupWorker) (wid : String) :
    List SupOp → List SupWorker
  | [] => table
  | op :: ops => runOps (applyOp table wid op) wid ops

/-- The restart count the table records for an id (0 when absent, since a
worker not yet spawned has had no restarts). -/
def restartCountOf (table : List SupWorker) (wid : String) : Nat :=
  match table.find? (fun w => w.id = wid) with
  | some w => w.restartCount
  | none => 0

end Supervisor

namespace Router

/-- Worker roles, as the spec's tagged enum (section 3 and design note on
dynamic role dispatch). -/
inductive Role where
  | orchestrator
  | manager
  | executor
  | monitor
deriving Repr, DecidableEq

/-- A routable worker: id, role, and the id of its Manager when it has
one. -/
structure RWorker where
  id : String
  role : Role
  managerId : Option String
deriving Repr, DecidableEq

/-- A message as the spec's section 3 data model defines it, restricted to
the routing-relevant fields. -/
structure Message where
  sender : String
  recipient : String
  body : String
deriving Repr, DecidableEq

/-- The router's typed errors (spec sections 4.3 and 7). -/
inductive SendError where
  | unknownRecipient
  | protocolViolation (reason : String)
deriving Repr, DecidableEq

/-- Router state: the worker table and a conversation per worker id. -/
structure RouterState where
  workers : List RWorker
  conversations : String → List Message

/-- Modelled from the spec (section 4.3): the hub-and-spoke authorization
rule of the MessageRouter, whose implementation (`qwen_control.py`) is not
in the source tree. A direct send where both sender and recipient report
role Executor is rejected unless the sender is the recipient's Manager. -/
def routeAuthorized (sender recipient : RWorker) : Bool :=
  if sender.role = Role.executor ∧ recipient.role = Role.executor then
    recipient.managerId = some sender.id
  else
    true

/-- Modelled from the spec (section 4.3): `MessageRouter.send` checks
recipient existence against the worker table, then validates the route,
and only then appends to the recipient's conversation; a rejected message
is not enqueued. Delivery is outside this model (its success is independent
of enqueuing). -/
def send (st : RouterState) (m : Message) :
    RouterState × Except SendError Unit :=
  match st.workers.find? (fun w => w.id = m.recipient) with
  | none => (st, Except.error SendError.unknownRecipient)
  | some recipient =>
      match st.workers.find? (fun w => w.id = m.sender) with
      | none => (st, Except.error (SendError.protocolViolation "unknownSender"))
      | some sender =>
          if routeAuthorized sender recipient then
            ({ st with
                conversations := fun wid =>
                  if wid = m.recipient
                  then st.conversations wid ++ [m]
                  else st.conversations wid },
             Except.ok ())
          else
            (st, Except.error (SendError.protocolViolation "unauthorizedRoute"))

end Router

namespace Persist

/-- Modelled from the spec (section 6, persisted state layout): the
persistence layer of the ConversationStore and the worker table lives in the
referenced-but-absent Python modules, so its file layout is taken from the
spec's words: one append-only log file per worker plus one worker-table
snapshot file written via a temporary file and an atomic rename. -/
structure FS where
  logs : String → List String
  tableFile : String
  tempFile : Option String

/-- Appending one conversation entry to a worker's log file. -/
def appendLog (fs : FS) (wid entry : String) : FS :=
  { fs with
    logs := fun w => if w = wid then fs.logs w ++ [entry] else fs.logs w }

/-- The intermediate file-system states of one snapshot rewrite of content
`new`: before the write, after the temporary file is written, and after the
atomic rename. A crash can interrupt the rewrite after any prefix of its two
steps, so these are exactly the states a post-crash recovery can observe. -/
def snapshotStates (fs : FS) (new : String) : List FS :=
  [ fs,
    { fs with tempFile := some new },
    { fs with tableFile := new, tempFile := none } ]

end Persist

namespace Fixtures

/-- A concrete worker table for the router scenarios: two Executors `A` and
`B` under Manager `M`, with `A` not `B`'s Manager. -/
def routerSt : Router.RouterState :=
  { workers :=
      [ { id := "A", role := Router.Role.executor, managerId := some "M" },
        { id := "B", role := Router.Role.executor, managerId := some "M" },
        { id := "M", role := Router.Role.manager, managerId := none } ],
    conversations := fun _ => [] }

/-- Executor `A` attempting a direct send to Executor `B`. -/
def exexMsg : Router.Message :=
  { sender := "A", recipient := "B", body := "hello" }

/-- A concrete script environment: one registered agent, a one-agent listing
for session `ai-chat`, deliveries that always succeed. -/
def env1 : SendQwen.QwenEnv :=
  { registered := ["pm_ai-chat"],
    listing := fun s =>
      if s = "ai-chat"
      then some [{ id := "pm_ai-chat", session := "ai-chat", window := "0" }]
      else none,
    messageOk := fun _ _ => true,
    healthOk := true }

/-- A concrete file-system fixture for the persistence model. -/
def fs0 : Persist.FS :=
  { logs := fun _ => [], tableFile := "table-v1", tempFile := none }

end Fixtures

/-! ## Theorems -/

theorem joinLines_singleton (s : String) : SendQwen.joinLines [s] = s := rfl

theorem hasSession_after_step (st : Tmux.TmuxState) :
    Tmux.hasSession
      (if Tmux.hasSession st Dashboard.SESSION_NAME
       then Tmux.killSession st Dashboard.SESSION_NAME else st)
      Dashboard.SESSION_NAME = false := by
  by_cases hs : Tmux.hasSession st Dashboard.SESSION_NAME
  · rw [if_pos hs]
    simp [Tmux.hasSession, Tmux.killSession, List.elem_eq_mem, List.mem_filter]
  · simp [hs]

theorem create_unified_dashboard_eq (st : Tmux.TmuxState) :
    Dashboard.create_unified_dashboard st =
      (⟨Dashboard.SESSION_NAME ::
          (if Tmux.hasSession st Dashboard.SESSION_NAME
           then Tmux.killSession st Dashboard.SESSION_NAME
           else st).sessions⟩, true) := by
  have hstep := hasSession_after_step st
  simp only [Dashboard.create_unified_dashboard, Dashboard.session_exists]
  rw [hstep]
  simp [Tmux.newSession, hstep]

/-- C10: after every successful `start` of the unified dashboard, exactly one
tmux session named `qwen-unified-dashboard` exists: any pre-existing
dashboard session is killed before the new one is created, so repeated
starts never accumulate duplicate dashboard sessions. -/
theorem c10_dashboard_unique (st : Tmux.TmuxState)
    (h : (Dashboard.create_unified_dashboard st).2 = true) :
    (Dashboard.create_unified_dashboard st).1.sessions.count
      Dashboard.SESSION_NAME = 1 := by
  rw [create_unified_dashboard_eq]
  have hstep := hasSession_after_step st
  have hnotmem : Dashboard.SESSION_NAME ∉
      (if Tmux.hasSession st Dashboard.SESSION_NAME
       then Tmux.killSession st Dashboard.SESSION_NAME else st).sessions := by
    simpa [Tmux.hasSession, List.elem_eq_mem] using hstep
  simp [List.count_cons_self, List.count_eq_zero.mpr hnotmem]

/-- C10 witness: starting from a server that already holds a dashboard
session and one other session, the start succeeds and leaves exactly one
dashboard session. -/
theorem c10_dashboard_unique_witness :
    (Dashboard.create_unified_dashboard
      ⟨["qwen-unified-dashboard", "project-x"]⟩).1.sessions.count
      Dashboard.SESSION_NAME = 1 :=
  c10_dashboard_unique ⟨["qwen-unified-dashboard", "project-x"]⟩ (by decide)
/-- C2 counterexample: in the concrete run that creates session `demo` on an
empty server and then calls `create_session demo` again with no intervening
kill, the second call does not succeed — it returns failure, refuting the
claimed no-op success. -/
theorem c2_counterexample :
    ¬ ((ShowSessions.create_session
        (ShowSessions.create_session ⟨[]⟩ "demo").state "demo").ok = true) := by
  decide

/-- C2 (amended): calling `create_session` a second time with the same id and
no intervening kill leaves the session state unchanged and creates no
duplicate resource, but it fails (returns 1) rather than succeeding as a
no-op, because `tmux new-session` rejects a duplicate session name. -/
theorem c2_second_create_fails (st : Tmux.TmuxState) (name : String)
    (h : (ShowSessions.create_session st name).ok = true) :
    ShowSessions.create_session (ShowSessions.create_session st name).state
        name =
      { state := (ShowSessions.create_session st name).state, ok := false } := by
  by_cases hn : name = ""
  · simp [ShowSessions.create_session, hn] at h
  · by_cases hs : Tmux.hasSession st name
    · simp [ShowSessions.create_session, hn, Tmux.newSession, hs] at h
    · have hfirst : ShowSessions.create_session st name =
          { state := ⟨name :: st.sessions⟩, ok := true } := by
        simp [ShowSessions.create_session, hn, Tmux.newSession, hs]
      rw [hfirst]
      have hmem : Tmux.hasSession ⟨name :: st.sessions⟩ name = true := by
        simp [Tmux.hasSession, List.elem_eq_mem]
      simp [ShowSessions.create_session, hn, Tmux.newSession, hmem]

/-- C2 witness: the amended statement at the concrete run on an empty
server with session id `demo`. -/
theorem c2_second_create_fails_witness :
    ShowSessions.create_session
        (ShowSessions.create_session ⟨[]⟩ "demo").state "demo" =
      { state := (ShowSessions.create_session ⟨[]⟩ "demo").state,
        ok := false } :=
  c2_second_create_fails ⟨[]⟩ "demo" (by decide)

/-- C8: whenever `send-qwen-message.sh` is invoked with fewer than two
arguments it prints the usage message and exits 1 without attempting any
send; in particular the single-argument forms `--help`, `--health` and
`--version` never reach the special-command dispatch, because the
argument-count check runs first. -/
theorem c8_argcount_precedes_dispatch (env : SendQwen.QwenEnv)
    (args : List String) (h : args.length < 2) :
    SendQwen.run_script env args =
      { outcome := SendQwen.Outcome.usage, deliveries := [] } := by
  unfold SendQwen.run_script
  rw [if_pos h]

/-- C8 witness: the single-argument invocation `--help` has fewer than two
arguments and ends in the usage exit with no delivery attempted. -/
theorem c8_argcount_precedes_dispatch_witness :
    (["--help"] : List String).length < 2 ∧
    SendQwen.run_script Fixtures.env1 ["--help"] =
      { outcome := SendQwen.Outcome.usage, deliveries := [] } :=
  ⟨by decide, c8_argcount_precedes_dispatch Fixtures.env1 ["--help"] (by decide)⟩

/-- C4 counterexample: a concrete invocation whose target does not exist
terminates with exit code 1, not the claimed exit code 2. -/
theorem c4_counterexample :
    (SendQwen.run_script Fixtures.env1 ["ghost", "hello"]).outcome =
      SendQwen.Outcome.notFound ∧
    (SendQwen.run_script Fixtures.env1 ["ghost", "hello"]).outcome.exitCode
      = 1 ∧
    (SendQwen.run_script Fixtures.env1 ["ghost", "hello"]).outcome.exitCode
      ≠ 2 := by
  decide

/-- C4 (amended): the script's only exit codes are 0 (success) and 1 (every
failure, including target-not-found); no invocation exits with code 2 or 3. -/
theorem c4_exit_codes (env : SendQwen.QwenEnv) (args : List String) :
    ((SendQwen.run_script env args).outcome.exitCode = 0 ∨
     (SendQwen.run_script env args).outcome.exitCode = 1) ∧
    SendQwen.Outcome.exitCode SendQwen.Outcome.notFound = 1 := by
  refine ⟨?_, rfl⟩
  cases hoc : (SendQwen.run_script env args).outcome <;>
    simp [SendQwen.Outcome.exitCode]

/-- C5 counterexample: with `ORCHESTRATOR_ROOT=/custom`, `HOME=/home/u` and
working directory `/work`, the scripts' base directory is
`/home/u/.tmux_orchestrator` — not `/custom`; and with `ORCHESTRATOR_ROOT`
unset it is not the working directory either. -/
theorem c5_counterexample :
    EnvPaths.BASE_DIR ⟨"/home/u", some "/custom", "/work"⟩ ≠ "/custom" ∧
    EnvPaths.BASE_DIR ⟨"/home/u", none, "/work"⟩ ≠ "/work" ∧
    EnvPaths.LOG_FILE ⟨"/home/u", some "/custom", "/work"⟩ ≠
      "/custom/logs/message_log.txt" := by
  decide

/-- C5 (amended): the base directory for logs and state is always
`$HOME/.tmux_orchestrator`; it does not depend on `ORCHESTRATOR_ROOT` or on
the current working directory. -/
theorem c5_base_dir_ignores_root (home : String) (r1 r2 : Option String)
    (c1 c2 : String) :
    EnvPaths.BASE_DIR ⟨home, r1, c1⟩ = home ++ "/.tmux_orchestrator" ∧
    EnvPaths.BASE_DIR ⟨home, r1, c1⟩ = EnvPaths.BASE_DIR ⟨home, r2, c2⟩ ∧
    EnvPaths.LOG_FILE ⟨home, r1, c1⟩ = EnvPaths.LOG_FILE ⟨home, r2, c2⟩ :=
  ⟨rfl, rfl, rfl⟩

/-- C3: when the requested recipient is in the worker table neither under its
id nor via the `session:window` fallback, the send fails as unknown-recipient
before any delivery: no `qwen_control.py message` call is attempted and no
conversation entry is appended. -/
theorem c3_unknown_recipient (env : SendQwen.QwenEnv)
    (agent_id message : String)
    (h1 : SendQwen.check_agent_exists env agent_id = false)
    (h2 : SendQwen.find_agent_by_session_window env agent_id = none) :
    SendQwen.script_main env agent_id message =
      { outcome := SendQwen.Outcome.notFound, deliveries := [] } ∧
    SendQwen.conversationAppends
      (SendQwen.script_main env agent_id message) = [] := by
  have hmain : SendQwen.script_main env agent_id message =
      { outcome := SendQwen.Outcome.notFound, deliveries := [] } := by
    unfold SendQwen.script_main
    rw [h1]
    simp [h2]
  exact ⟨hmain, by simp [SendQwen.conversationAppends, hmain]⟩

/-- C3 witness: sending to the unregistered, unresolvable id `ghost` fails
with the not-found outcome and attempts no delivery and no append. -/
theorem c3_unknown_recipient_witness :
    SendQwen.script_main Fixtures.env1 "ghost" "hi" =
      { outcome := SendQwen.Outcome.notFound, deliveries := [] } ∧
    SendQwen.conversationAppends
      (SendQwen.script_main Fixtures.env1 "ghost" "hi") = [] :=
  c3_unknown_recipient Fixtures.env1 "ghost" "hi" (by decide) (by decide)

/-- C9: an unregistered target of the form `session:window` that the session
listing maps to exactly one agent is resolved to that agent's id, and the
message is sent to the resolved agent instead of failing. -/
theorem c9_session_window_resolution (env : SendQwen.QwenEnv)
    (agent_id message sess win aid : String)
    (rows : List SendQwen.AgentRow)
    (h1 : SendQwen.check_agent_exists env agent_id = false)
    (h2 : SendQwen.parse_session_window agent_id = some (sess, win))
    (h3 : env.listing sess = some rows)
    (h4 : (rows.filter fun r => r.session = sess ∧ r.window = win).map
        (fun r => r.id) = [aid]) :
    SendQwen.script_main env agent_id message =
      SendQwen.send_api_message env aid message ∧
    (SendQwen.script_main env agent_id message).deliveries =
      [(aid, message)] ∧
    (SendQwen.script_main env agent_id message).outcome ≠
      SendQwen.Outcome.notFound := by
  have hfind : SendQwen.find_agent_by_session_window env agent_id =
      some aid := by
    unfold SendQwen.find_agent_by_session_window
    rw [h2]
    dsimp only
    rw [h3]
    dsimp only
    rw [h4]
    rfl
  have hmain : SendQwen.script_main env agent_id message =
      SendQwen.send_api_message env aid message := by
    unfold SendQwen.script_main
    rw [h1]
    simp [hfind]
  refine ⟨hmain, ?_, ?_⟩
  · rw [hmain]
    unfold SendQwen.send_api_message
    by_cases hok : env.messageOk aid message <;> simp [hok]
  · rw [hmain]
    unfold SendQwen.send_api_message
    by_cases hok : env.messageOk aid message <;> simp [hok]

/-- C9 witness: the unregistered target `ai-chat:0` resolves to the listed
agent `pm_ai-chat` occupying session `ai-chat`, window 0, and the message is
delivered to `pm_ai-chat`. -/
theorem c9_session_window_resolution_witness :
    SendQwen.script_main Fixtures.env1 "ai-chat:0" "hi" =
      SendQwen.send_api_message Fixtures.env1 "pm_ai-chat" "hi" ∧
    (SendQwen.script_main Fixtures.env1 "ai-chat:0" "hi").deliveries =
      [("pm_ai-chat", "hi")] ∧
    (SendQwen.script_main Fixtures.env1 "ai-chat:0" "hi").outcome ≠
      SendQwen.Outcome.notFound :=
  c9_session_window_resolution Fixtures.env1 "ai-chat:0" "hi" "ai-chat" "0"
    "pm_ai-chat" [{ id := "pm_ai-chat", session := "ai-chat", window := "0" }]
    (by decide) (by decide) (by decide) (by decide)

/-- C1: a send where both the sender and the recipient report role Executor
and the sender is not the recipient's Manager is rejected with
`ProtocolViolation(unauthorizedRoute)`, the router state is unchanged, and
no message is appended to the recipient's conversation. -/
theorem c1_executor_to_executor_rejected (st : Router.RouterState)
    (m : Router.Message) (sender recipient : Router.RWorker)
    (hs : st.workers.find? (fun w => w.id = m.sender) = some sender)
    (hr : st.workers.find? (fun w => w.id = m.recipient) = some recipient)
    (hsr : sender.role = Router.Role.executor)
    (hrr : recipient.role = Router.Role.executor)
    (hnm : recipient.managerId ≠ some sender.id) :
    Router.send st m =
      (st, Except.error
        (Router.SendError.protocolViolation "unauthorizedRoute")) ∧
    (Router.send st m).1.conversations m.recipient =
      st.conversations m.recipient := by
  have hauth : Router.routeAuthorized sender recipient = false := by
    simp [Router.routeAuthorized, hsr, hrr, hnm]
  have hsend : Router.send st m =
      (st, Except.error
        (Router.SendError.protocolViolation "unauthorizedRoute")) := by
    unfold Router.send
    rw [hr]
    dsimp only
    rw [hs]
    dsimp only
    rw [hauth]
    simp
  exact ⟨hsend, by rw [hsend]⟩

/-- C1 witness: Executor `A` (whose Manager is `M`) sending directly to
Executor `B` is rejected with the unauthorized-route protocol violation and
`B`'s conversation stays empty. -/
theorem c1_executor_to_executor_rejected_witness :
    Router.send Fixtures.routerSt Fixtures.exexMsg =
      (Fixtures.routerSt, Except.error
        (Router.SendError.protocolViolation "unauthorizedRoute")) ∧
    (Router.send Fixtures.routerSt Fixtures.exexMsg).1.conversations
        Fixtures.exexMsg.recipient =
      Fixtures.routerSt.conversations Fixtures.exexMsg.recipient :=
  c1_executor_to_executor_rejected Fixtures.routerSt Fixtures.exexMsg
    { id := "A", role := Router.Role.executor, managerId := some "M" }
    { id := "B", role := Router.Role.executor, managerId := some "M" }
    (by decide) (by decide) (by decide) (by decide) (by decide)

/-- C6: conversation history is one append-only log per worker — an append
extends exactly the addressed worker's log and leaves the table untouched —
and the worker-table snapshot is rewritten via write-temp-then-rename, so
every state a crash during the rewrite can leave behind holds either the
complete old table or the complete new one, never a partial write. -/
theorem c6_persistence (fs : Persist.FS) (new wid entry : String)
    (s : Persist.FS) (hmem : s ∈ Persist.snapshotStates fs new) :
    (s.tableFile = fs.tableFile ∨ s.tableFile = new) ∧
    (Persist.appendLog fs wid entry).logs =
      Function.update fs.logs wid (fs.logs wid ++ [entry]) ∧
    (Persist.appendLog fs wid entry).tableFile = fs.tableFile := by
  refine ⟨?_, ?_, rfl⟩
  · simp only [Persist.snapshotStates, List.mem_cons,
      List.not_mem_nil, or_false] at hmem
    rcases hmem with rfl | rfl | rfl
    · exact Or.inl rfl
    · exact Or.inl rfl
    · exact Or.inr rfl
  · funext w
    simp only [Persist.appendLog, Function.update_apply]
    by_cases hw : w = wid <;> simp [hw]

/-- C6 witness: the post-crash state in which only the temporary file was
written still holds the complete old table, and a concrete append extends
only worker `w1`'s log. -/
theorem c6_persistence_witness :
    (({ Fixtures.fs0 with tempFile := some "table-v2" } :
        Persist.FS).tableFile = Fixtures.fs0.tableFile ∨
      ({ Fixtures.fs0 with tempFile := some "table-v2" } :
        Persist.FS).tableFile = "table-v2") ∧
    (Persist.appendLog Fixtures.fs0 "w1" "entry1").logs =
      Function.update Fixtures.fs0.logs "w1"
        (Fixtures.fs0.logs "w1" ++ ["entry1"]) ∧
    (Persist.appendLog Fixtures.fs0 "w1" "entry1").tableFile =
      Fixtures.fs0.tableFile :=
  c6_persistence Fixtures.fs0 "table-v2" "w1" "entry1"
    { Fixtures.fs0 with tempFile := some "table-v2" }
    (by simp [Persist.snapshotStates])

theorem restartCountOf_map_le (table : List Supervisor.SupWorker)
    (wid : String) (g : Supervisor.SupWorker → Supervisor.SupWorker)
    (hid : ∀ w, (g w).id = w.id)
    (hcnt : ∀ w, w.restartCount ≤ (g w).restartCount) :
    Supervisor.restartCountOf table wid ≤
      Supervisor.restartCountOf
        (table.map fun w => if w.id = wid then g w else w) wid := by
  induction table with
  | nil => simp [Supervisor.restartCountOf]
  | cons a t ih =>
      by_cases ha : a.id = wid
      · rw [List.map_cons, if_pos ha]
        unfold Supervisor.restartCountOf
        rw [List.find?_cons_of_pos _ (by simp [ha]),
          List.find?_cons_of_pos _ (by simp [hid a, ha])]
        exact hcnt a
      · rw [List.map_cons, if_neg ha]
        unfold Supervisor.restartCountOf
        rw [List.find?_cons_of_neg _ (by simp [ha]),
          List.find?_cons_of_neg _ (by simp [ha])]
        exact ih

theorem restartCountOf_applyOp_le (table : List Supervisor.SupWorker)
    (wid : String) (op : Supervisor.SupOp) :
    Supervisor.restartCountOf table wid ≤
      Supervisor.restartCountOf (Supervisor.applyOp table wid op) wid := by
  cases op with
  | spawn =>
      unfold Supervisor.applyOp
      by_cases hp : table.any fun w => w.id = wid
      · rw [if_pos hp]
        exact restartCountOf_map_le table wid _ (fun w => rfl)
          (fun w => le_refl _)
      · rw [if_neg hp]
        have hnone : table.find? (fun w => w.id = wid) = none := by
          rw [List.find?_eq_none]
          intro x hx
          simp only [List.any_eq_true, not_exists, not_and] at hp
          simpa using hp x hx
        unfold Supervisor.restartCountOf
        rw [hnone]
        exact Nat.zero_le _
  | restart =>
      exact restartCountOf_map_le table wid _ (fun w => rfl)
        (fun w => Nat.le_succ _)
  | terminate =>
      exact restartCountOf_map_le table wid _ (fun w => rfl)
        (fun w => le_refl _)

theorem runOps_append (table : List Supervisor.SupWorker) (wid : String)
    (l1 l2 : List Supervisor.SupOp) :
    Supervisor.runOps table wid (l1 ++ l2) =
      Supervisor.runOps (Supervisor.runOps table wid l1) wid l2 := by
  induction l1 generalizing table with
  | nil => rfl
  | cons op ops ih => simp [Supervisor.runOps, ih]

/-- C7: for every worker id and every sequence of restart, terminate and
spawn operations on that id, the recorded `restartCount` is monotonically
non-decreasing: its value after any prefix of the sequence is at most its
value after any longer prefix, so it only increases and is never reset for
the lifetime of the worker id. -/
theorem c7_restart_count_monotone (table : List Supervisor.SupWorker)
    (wid : String) (done next : List Supervisor.SupOp) :
    Supervisor.restartCountOf (Supervisor.runOps table wid done) wid ≤
      Supervisor.restartCountOf
        (Supervisor.runOps table wid (done ++ next)) wid := by
  rw [runOps_append]
  generalize Supervisor.runOps table wid done = t
  induction next generalizing t with
  | nil => exact le_refl _
  | cons op ops ih =>
      exact le_trans (restartCountOf_applyOp_le t wid op) (ih _)
